import Mathlib

/-!
Shallow embedding of the DuckAI chat client core
(src/content/duckai/duckai.py and src/content/duckai/exceptions.py):
the error classifier `_get_url`, token acquisition, the streaming chat
protocol `chat_yield`, and the convenience wrapper `chat`.
Byte strings of the source are modelled as `String`; the Python string
operations used by the source (split, strip, lower, substring test) are
re-implemented here as executable functions over character lists.
-/

namespace Duckai

/-- ASCII whitespace stripped by Python `bytes.strip()`. -/
def isPySpace (c : Char) : Bool :=
  c = ' ' || c = '\t' || c = '\n' || c = '\r' || c = '\x0b' || c = '\x0c'

/-- Python `bytes.strip()`: drop leading and trailing ASCII whitespace. -/
def pyStrip (s : String) : String :=
  String.mk (((s.toList.dropWhile isPySpace).reverse.dropWhile isPySpace).reverse)

/-- If `sep` is a prefix of `l`, return the remainder. -/
def dropPrefixQ : List Char → List Char → Option (List Char)
  | [], l => some l
  | _, [] => none
  | a :: p, b :: l => if a = b then dropPrefixQ p l else none

/-- Fuelled worker for `pySplit`. -/
def splitAux : Nat → List Char → List Char → List Char → List (List Char)
  | 0, _, acc, rest => [acc.reverse ++ rest]
  | fuel + 1, sep, acc, l =>
    match dropPrefixQ sep l with
    | some rest => acc.reverse :: splitAux fuel sep [] rest
    | none =>
      match l with
      | [] => [acc.reverse]
      | c :: t => splitAux fuel sep (c :: acc) t

/-- Python `bytes.split(sep)`: split on every occurrence of `sep`. -/
def pySplit (s sep : String) : List String :=
  (splitAux (s.toList.length + 1) sep.toList [] s.toList).map String.mk

/-- Fuelled worker for `splitFirst`. -/
def splitFirstAux : Nat → List Char → List Char → Option (List Char × List Char)
  | 0, _, _ => none
  | fuel + 1, sep, l =>
    match dropPrefixQ sep l with
    | some rest => some ([], rest)
    | none =>
      match l with
      | [] => none
      | c :: t =>
        match splitFirstAux fuel sep t with
        | some p => some (c :: p.1, p.2)
        | none => none

/-- Python `s.split(sep, maxsplit=1)` when `sep` occurs: the part before the
first occurrence and the part after it; `none` when `sep` does not occur. -/
def splitFirst (s sep : String) : Option (String × String) :=
  match splitFirstAux (s.toList.length + 1) sep.toList s.toList with
  | some p => some (String.mk p.1, String.mk p.2)
  | none => none

/-- Python `sub in s` substring test. -/
def containsSub (s sub : String) : Bool :=
  (splitFirst s sub).isSome

/-- Python `str.lower()` (ASCII is all the source relies on). -/
def lowerStr (s : String) : String :=
  String.mk (s.toList.map Char.toLower)

/-- The exception taxonomy of src/content/duckai/exceptions.py, plus
`other` for arbitrary Python exceptions (transport errors, parse errors)
identified by their class name. -/
inductive ExnKind where
  | duckai
  | ratelimit
  | timeout
  | convLimit
  | other (name : String)
  deriving DecidableEq, Repr

/-- Python `type(ex).__name__` for the modelled exceptions. -/
def ExnKind.typeName : ExnKind → String
  | ExnKind.duckai => "DuckAIException"
  | ExnKind.ratelimit => "RatelimitException"
  | ExnKind.timeout => "TimeoutException"
  | ExnKind.convLimit => "ConversationLimitException"
  | ExnKind.other n => n

/-- A raised Python exception: its class and its message `str(ex)`. -/
structure PyExn where
  kind : ExnKind
  msg : String
  deriving DecidableEq, Repr

/-- One item of `resp.stream()`: either a byte chunk or a transport failure
raised while iterating the body. -/
inductive StreamItem where
  | chunk (bytes : String)
  | fail (exnName : String) (msg : String)
  deriving DecidableEq, Repr

/-- An HTTP response as the transport adapter returns it. -/
structure HttpResponse where
  url : String
  status_code : Nat
  headers : List (String × String)
  content : String
  stream : List StreamItem
  deriving DecidableEq, Repr

/-- Outcome of one transport request: an exception from the client, or a
response. -/
inductive TransportOutcome where
  | exn (exnName : String) (msg : String)
  | resp (r : HttpResponse)
  deriving DecidableEq, Repr

def homeUrl : String := "https://duckduckgo.com/?q=DuckDuckGo+AI+Chat&ia=chat&duckai=1"

def statusUrl : String := "https://duckduckgo.com/duckchat/v1/status"

def chatUrl : String := "https://duckduckgo.com/duckchat/v1/chat"

/-- `DuckAI._get_url` (duckai.py lines 94-127): classify the outcome of a
request. Transport exceptions whose message contains "time" (lowercased)
become `TimeoutException`, other transport exceptions become
`DuckAIException`; status 200 passes the response through, the statuses
in the tuple `(202, 301, 403, 400, 429, 418)` raise `RatelimitException`,
every other status raises `DuckAIException`. -/
def get_url (url : String) (o : TransportOutcome) : Except PyExn HttpResponse :=
  match o with
  | TransportOutcome.exn name msg =>
    if containsSub (lowerStr msg) "time" then
      Except.error ⟨ExnKind.timeout, url ++ " " ++ name ++ ": " ++ msg⟩
    else
      Except.error ⟨ExnKind.duckai, url ++ " " ++ name ++ ": " ++ msg⟩
  | TransportOutcome.resp r =>
    if r.status_code = 200 then Except.ok r
    else if r.status_code ∈ [202, 301, 403, 400, 429, 418] then
      Except.error ⟨ExnKind.ratelimit, r.url ++ " " ++ toString r.status_code ++ " Ratelimit"⟩
    else
      Except.error ⟨ExnKind.duckai, r.url ++ " return None."⟩

/-- A JSON scalar value as produced by the modelled parser. -/
inductive JVal where
  | str (s : String)
  | num (n : Int)
  deriving DecidableEq, Repr

/-- Result of parsing one stream segment: a JSON object (field list) or a
well-formed non-object JSON value (for which the `isinstance(x, dict)`
check of the source fails, so the segment is ignored). -/
inductive Json where
  | dict (fields : List (String × JVal))
  | nonDict
  deriving DecidableEq, Repr

/-- JSON insignificant whitespace. -/
def jsonWs (c : Char) : Bool :=
  c = ' ' || c = '\t' || c = '\n' || c = '\r'

/-- Scan a JSON string literal body up to the closing quote (the model
supports no escape sequences; none occur on the wire format). -/
def takeStr : List Char → Option (List Char × List Char)
  | [] => none
  | c :: rest =>
    if c = '"' then some ([], rest)
    else if c = '\\' then none
    else
      match takeStr rest with
      | some p => some (c :: p.1, p.2)
      | none => none

/-- Scan a maximal run of decimal digits. -/
def takeDigits : List Char → List Char × List Char
  | [] => ([], [])
  | c :: rest =>
    if c.isDigit then
      match takeDigits rest with
      | (d, r) => (c :: d, r)
    else ([], c :: rest)

/-- Numeric value of a digit run. -/
def digitsVal (l : List Char) : Nat :=
  (String.mk l).toNat?.getD 0

/-- Parse one JSON scalar (string or integer). -/
def parseJVal : List Char → Option (JVal × List Char)
  | [] => none
  | c :: rest =>
    if c = '"' then
      match takeStr rest with
      | some p => some (JVal.str (String.mk p.1), p.2)
      | none => none
    else if c = '-' then
      match takeDigits rest with
      | (d, r) => if d.isEmpty then none else some (JVal.num (-(Int.ofNat (digitsVal d))), r)
    else if c.isDigit then
      match takeDigits (c :: rest) with
      | (d, r) => some (JVal.num (Int.ofNat (digitsVal d)), r)
    else none

/-- Fuelled parse of the members of a JSON object, positioned after the
opening brace (and after any whitespace), at the first key. -/
def parseFields : Nat → List Char → Option (List (String × JVal) × List Char)
  | 0, _ => none
  | fuel + 1, l =>
    match l.dropWhile jsonWs with
    | '"' :: rest =>
      match takeStr rest with
      | none => none
      | some (k, r1) =>
        match r1.dropWhile jsonWs with
        | ':' :: r3 =>
          match parseJVal (r3.dropWhile jsonWs) with
          | none => none
          | some (v, r4) =>
            match r4.dropWhile jsonWs with
            | ',' :: r6 =>
              match parseFields fuel r6 with
              | none => none
              | some (fs, rest2) => some ((String.mk k, v) :: fs, rest2)
            | '\x7d' :: r6 => some ([(String.mk k, v)], r6)
            | _ => none
        | _ => none
    | _ => none

/-- Modelled from the spec: `json_loads` is imported from `.utils`, which is
not under src/; section 6 of the spec describes the body as a stream of
"JSON objects with fields `action`, `status`, `type`, `message`". The model
parses flat JSON objects with string and integer values; a segment that
parses as a simple non-object JSON value yields `Json.nonDict` (ignored by
the caller, as the source's `isinstance(x, dict)` check fails), and a
segment that does not parse at all yields `none` (the source's parser
raises there). -/
def jsonLoads (s : String) : Option Json :=
  match s.toList.dropWhile jsonWs with
  | '\x7b' :: rest =>
    match rest.dropWhile jsonWs with
    | '\x7d' :: r2 => if (r2.dropWhile jsonWs).isEmpty then some (Json.dict []) else none
    | r1 =>
      match parseFields (s.toList.length + 1) r1 with
      | none => none
      | some (fs, rest2) =>
        if (rest2.dropWhile jsonWs).isEmpty then some (Json.dict fs) else none
  | l =>
    match parseJVal l with
    | some (_, r) => if (r.dropWhile jsonWs).isEmpty then some Json.nonDict else none
    | none =>
      if l = "null".toList || l = "true".toList || l = "false".toList then some Json.nonDict
      else none

/-- Python `dict.get` on the parsed object (last duplicate key wins, as in
Python's dict construction). -/
def jget (fs : List (String × JVal)) (k : String) : Option JVal :=
  match fs.reverse.find? (fun p => p.1 == k) with
  | some p => some p.2
  | none => none

/-- What the loop body of `chat_yield` does with one raw `data:`-segment
(duckai.py lines 190-210). -/
inductive SegStep where
  | skip
  | stop
  | yieldMsg (s : String)
  | raiseExn (e : PyExn)
  deriving DecidableEq, Repr

/-- One iteration of the inner `for line in lines` loop of `chat_yield`:
strip the segment; skip it when empty; `break` on the `[DONE]` sentinel;
raise `ConversationLimitException` on the `[DONE][LIMIT_CONVERSATION]`
sentinel; otherwise parse it as JSON and dispatch on its fields. -/
def stepLine (raw : String) : SegStep :=
  let line := pyStrip raw
  if line = "" then SegStep.skip
  else if line = "[DONE]" then SegStep.stop
  else if line = "[DONE][LIMIT_CONVERSATION]" then
    SegStep.raiseExn ⟨ExnKind.convLimit, "ERR_CONVERSATION_LIMIT"⟩
  else
    match jsonLoads line with
    | none => SegStep.raiseExn ⟨ExnKind.other "ValueError", "invalid json"⟩
    | some Json.nonDict => SegStep.skip
    | some (Json.dict fields) =>
      if jget fields "action" = some (JVal.str "error") then
        let err_message :=
          match jget fields "type" with
          | some (JVal.str s) => s
          | some (JVal.num n) => toString n
          | none => ""
        if jget fields "status" = some (JVal.num 429) then
          if err_message = "ERR_CONVERSATION_LIMIT" then
            SegStep.raiseExn ⟨ExnKind.convLimit, err_message⟩
          else SegStep.raiseExn ⟨ExnKind.ratelimit, err_message⟩
        else SegStep.raiseExn ⟨ExnKind.duckai, err_message⟩
      else
        match jget fields "message" with
        | some (JVal.str s) => if s = "" then SegStep.skip else SegStep.yieldMsg s
        | some (JVal.num n) => if n = 0 then SegStep.skip else SegStep.yieldMsg (toString n)
        | none => SegStep.skip

/-- The inner `for line in lines` loop of `chat_yield` over the segments of
one chunk: threads the token counter and the accumulated fragment list,
ends the chunk early on `break`, and surfaces a raised exception. -/
def runLines : Nat → List String → List String → Nat × List String × Option PyExn
  | t, a, [] => (t, a, none)
  | t, a, raw :: rest =>
    match stepLine raw with
    | SegStep.skip => runLines t a rest
    | SegStep.stop => (t, a, none)
    | SegStep.yieldMsg s => runLines (t + 1) (a ++ [s]) rest
    | SegStep.raiseExn e => (t, a, some e)

/-- The outer `for chunk in resp.stream()` loop of `chat_yield`: each chunk
is split on `"data:"` and fed to the inner loop; a transport failure while
iterating the body raises; a raised exception aborts the whole loop; the
`break` of the inner loop only ends the current chunk. -/
def runStream : Nat → List String → List StreamItem → Nat × List String × Option PyExn
  | t, a, [] => (t, a, none)
  | t, a, StreamItem.fail n m :: _ => (t, a, some ⟨ExnKind.other n, m⟩)
  | t, a, StreamItem.chunk b :: rest =>
    match runLines t a (pySplit b "data:") with
    | (t2, a2, some e) => (t2, a2, some e)
    | (t2, a2, none) => runStream t2 a2 rest

/-- One entry of the conversation history: a Python dict
`{"role": ..., "content": ...}`. -/
structure Message where
  role : String
  content : String
  deriving DecidableEq, Repr

/-- The mutable session state of a `DuckAI` instance: the process-wide
front-end version `DuckAI._chat_xfe` together with the per-instance fields
`_chat_vqd`, `_chat_vqd_hash`, `_chat_messages`, `_chat_tokens_count`. -/
structure ChatState where
  chat_xfe : String
  chat_vqd : String
  chat_vqd_hash : String
  chat_messages : List Message
  chat_tokens_count : Nat
  deriving DecidableEq, Repr

/-- A freshly constructed `DuckAI` instance in a fresh process. -/
def initState : ChatState := ⟨"", "", "", [], 0⟩

/-- The external world one `chat_yield` call interacts with: the outcomes
of its three possible requests, the client headers, and the integrity hash
function. `deriveHash` is modelled from the spec: `HashBuilder.build_hash`
is imported from `.libs.utils_chat`, which is not under src/; the spec
specifies it as an opaque deterministic function
`deriveHash(previous, headers) -> next`. -/
structure Env where
  xfeResp : TransportOutcome
  statusResp : TransportOutcome
  chatResp : TransportOutcome
  clientHeaders : List (String × String)
  deriveHash : String → List (String × String) → String

/-- Python `resp.headers.get(k, "")`. -/
def hget (hs : List (String × String)) (k : String) : String :=
  match hs.find? (fun p => p.1 == k) with
  | some p => p.2
  | none => ""

/-- The fixed model catalog `DuckAI._chat_models`. -/
def chat_models : List (String × String) :=
  [("gpt-4o-mini", "gpt-4o-mini"),
   ("llama-3.3-70b", "meta-llama/Llama-3.3-70B-Instruct-Turbo"),
   ("claude-3-haiku", "claude-3-haiku-20240307"),
   ("o3-mini", "o3-mini"),
   ("mistral-small-3", "mistralai/Mistral-Small-24B-Instruct-2501")]

/-- Catalog lookup. -/
def lookupModel (m : String) : Option String :=
  match chat_models.find? (fun p => p.1 == m) with
  | some p => some p.2
  | none => none

/-- The model-substitution step of `chat_yield` (lines 166-168): an
unrecognized identifier falls back to "gpt-4o-mini" (with a warning). -/
def resolveModel (m : String) : String :=
  if (lookupModel m).isSome then m else "gpt-4o-mini"

/-- The upstream id `self._chat_models[model]` sent in the POST body. -/
def modelId (m : String) : String :=
  (lookupModel (resolveModel m)).getD "gpt-4o-mini"

/-- Python `content.split(marker, 1)[1].split(b'"', 1)[0]`: the text after
the first occurrence of `marker` up to the next double quote; `none` when
the marker is absent (the source raises `IndexError` there). -/
def extractMarked (content marker : String) : Option String :=
  match splitFirst content marker with
  | none => none
  | some p => some ((pySplit p.2 "\"").headD "")

/-- The front-end-version extraction of `chat_yield` (lines 148-150). -/
def extractXfe (content : String) : Option String :=
  match extractMarked content "__DDG_BE_VERSION__=\"" with
  | none => none
  | some a =>
    match extractMarked content "__DDG_FE_CHAT_HASH__=\"" with
    | none => none
    | some b => some (a ++ "-" ++ b)

/-- The front-end-version bootstrap of `chat_yield` (lines 142-152): when
`DuckAI._chat_xfe` is empty, GET the landing page, extract the two markers
and cache their concatenation; extraction failure is wrapped as
`DuckAIException`, a request failure propagates as classified by
`get_url`. Returns the new state and the number of requests performed. -/
def ensureXfe (env : Env) (st : ChatState) : Except PyExn (ChatState × Nat) :=
  if st.chat_xfe = "" then
    match get_url homeUrl env.xfeResp with
    | Except.error e => Except.error e
    | Except.ok r =>
      match extractXfe r.content with
      | none =>
        Except.error ⟨ExnKind.duckai,
          "chat_yield() Error to get _chat_xfe: IndexError: list index out of range"⟩
      | some x => Except.ok ({ st with chat_xfe := x }, 1)
  else Except.ok (st, 0)

/-- The session-token bootstrap of `chat_yield` (lines 154-159): when
`self._chat_vqd` is empty, GET the status endpoint and read both
`_chat_vqd` and `_chat_vqd_hash` from its headers, defaulting to the empty
string when a header is absent. Returns the new state and the number of
requests performed. -/
def ensureVqd (env : Env) (st : ChatState) : Except PyExn (ChatState × Nat) :=
  if st.chat_vqd = "" then
    match get_url statusUrl env.statusResp with
    | Except.error e => Except.error e
    | Except.ok r =>
      Except.ok ({ st with
        chat_vqd := hget r.headers "x-vqd-4",
        chat_vqd_hash := hget r.headers "x-vqd-hash-1" }, 1)
  else Except.ok (st, 0)

/-- The chat POST request as issued (headers and JSON body of lines
173-182): used to observe what credentials a run sent. -/
structure PostRecord where
  xfe : String
  vqd : String
  vqdHash : String
  modelSent : String
  messages : List Message
  deriving DecidableEq, Repr

/-- The `except` clause of the stream loop (lines 211-212): every exception
raised while iterating the body is re-raised as the base `DuckAIException`
with message `chat_yield() {type(ex).__name__}: {ex}`. -/
def wrapExn (e : PyExn) : PyExn :=
  ⟨ExnKind.duckai, "chat_yield() " ++ e.kind.typeName ++ ": " ++ e.msg⟩

/-- The result of driving the generator returned by `chat_yield` to its
end: the fragments yielded before it finished, the session state it left
behind, the exception it raised (if any), and the chat POST it issued
(if it got that far). -/
structure RunResult where
  yielded : List String
  state : ChatState
  outcome : Option PyExn
  post : Option PostRecord
  deriving DecidableEq, Repr

/-- `DuckAI.chat_yield` (duckai.py lines 129-215), fully driven: front-end
version bootstrap, session-token bootstrap, lone hash recomputation, user
message append and token estimate, model resolution, the chat POST, token
rotation from the response headers, and the streaming loop whose
exceptions are wrapped by `wrapExn`; on normal termination the joined
fragments are appended as the assistant message. -/
def chat_yield (env : Env) (st0 : ChatState) (keywords mdl : String) : RunResult :=
  match ensureXfe env st0 with
  | Except.error e => ⟨[], st0, some e, none⟩
  | Except.ok (st1, _) =>
    match ensureVqd env st1 with
    | Except.error e => ⟨[], st1, some e, none⟩
    | Except.ok (st2, _) =>
      let st3 : ChatState :=
        { st2 with chat_vqd_hash := env.deriveHash st2.chat_vqd_hash env.clientHeaders }
      let st4 : ChatState :=
        { st3 with
          chat_messages := st3.chat_messages ++ [⟨"user", keywords⟩],
          chat_tokens_count := st3.chat_tokens_count + max (keywords.length / 4) 1 }
      let pr : PostRecord :=
        ⟨st4.chat_xfe, st4.chat_vqd, st4.chat_vqd_hash, modelId mdl, st4.chat_messages⟩
      match get_url chatUrl env.chatResp with
      | Except.error e => ⟨[], st4, some e, some pr⟩
      | Except.ok r =>
        let st5 : ChatState :=
          { st4 with
            chat_vqd := hget r.headers "x-vqd-4",
            chat_vqd_hash := hget r.headers "x-vqd-hash-1" }
        match runStream st5.chat_tokens_count [] r.stream with
        | (t2, frags, some e) =>
          ⟨frags, { st5 with chat_tokens_count := t2 }, some (wrapExn e), some pr⟩
        | (t2, frags, none) =>
          ⟨frags,
           { st5 with
             chat_tokens_count := t2,
             chat_messages := st5.chat_messages ++ [⟨"assistant", String.join frags⟩] },
           none, some pr⟩

/-- `DuckAI.chat` (duckai.py lines 217-230): `"".join` over the generator
returned by `chat_yield` — drives it to the end, concatenates what it
yielded, and propagates its exception. -/
def chat (env : Env) (st0 : ChatState) (keywords mdl : String) :
    Except PyExn String × ChatState :=
  let r := chat_yield env st0 keywords mdl
  match r.outcome with
  | some e => (Except.error e, r.state)
  | none => (Except.ok (String.join r.yielded), r.state)

/-- Did both bootstrap steps (front-end version, session token) succeed
for this environment and starting state? -/
def bootstrapOk (env : Env) (st : ChatState) : Bool :=
  match ensureXfe env st with
  | Except.error _ => false
  | Except.ok (st1, _) =>
    match ensureVqd env st1 with
    | Except.error _ => false
    | Except.ok _ => true

/-- A landing page carrying both version markers. -/
def pageContent : String :=
  "window.__DDG_BE_VERSION__=\"be1\";window.__DDG_FE_CHAT_HASH__=\"fe1\";"

/-- A successful landing-page response. -/
def goodXfeResp : TransportOutcome :=
  TransportOutcome.resp ⟨homeUrl, 200, [], pageContent, []⟩

/-- A successful status response issuing both token headers. -/
def goodStatusResp : TransportOutcome :=
  TransportOutcome.resp
    ⟨statusUrl, 200, [("x-vqd-4", "vqd1"), ("x-vqd-hash-1", "hash1")], "", []⟩

/-- A successful chat POST response with rotated token headers and the
given body stream. -/
def mkChatResp (items : List StreamItem) : TransportOutcome :=
  TransportOutcome.resp
    ⟨chatUrl, 200, [("x-vqd-4", "vqd2"), ("x-vqd-hash-1", "hash2")], "", items⟩

/-- An environment where all three requests succeed and the chat body is
the given stream; the hash function appends "+". -/
def mkEnv (items : List StreamItem) : Env :=
  ⟨goodXfeResp, goodStatusResp, mkChatResp items, [], fun p _ => p ++ "+"⟩

/-- The front-end version a run against `mkEnv` ends up using. -/
def mkXfe (st : ChatState) : String :=
  if st.chat_xfe = "" then "be1-fe1" else st.chat_xfe

/-- The session token a run against `mkEnv` POSTs with. -/
def mkVqd (st : ChatState) : String :=
  if st.chat_vqd = "" then "vqd1" else st.chat_vqd

/-- The hash value in place before the lone recomputation. -/
def mkHashPrev (st : ChatState) : String :=
  if st.chat_vqd = "" then "hash1" else st.chat_vqd_hash

/-- The POST a run against `mkEnv` issues. -/
def mkPost (st : ChatState) (kw mdl : String) : PostRecord :=
  ⟨mkXfe st, mkVqd st, mkHashPrev st ++ "+", modelId mdl,
   st.chat_messages ++ [⟨"user", kw⟩]⟩

/-- The session state after the POST response of `mkEnv`, before the
assistant append, with stream token increment `t`. -/
def mkStateBase (st : ChatState) (kw : String) (t : Nat) : ChatState :=
  ⟨mkXfe st, "vqd2", "hash2", st.chat_messages ++ [⟨"user", kw⟩],
   st.chat_tokens_count + max (kw.length / 4) 1 + t⟩

/-- The expected result of `chat_yield` against `mkEnv items`. -/
def mkRun (items : List StreamItem) (st : ChatState) (kw mdl : String) : RunResult :=
  match runStream 0 [] items with
  | (t, frags, some e) =>
    ⟨frags, mkStateBase st kw t, some (wrapExn e), some (mkPost st kw mdl)⟩
  | (t, frags, none) =>
    ⟨frags,
     { mkStateBase st kw t with
       chat_messages :=
         st.chat_messages ++ [⟨"user", kw⟩] ++ [⟨"assistant", String.join frags⟩] },
     none, some (mkPost st kw mdl)⟩

/-- The outcome taxonomy of the error classifier, up to the failure kind
(the spec constrains kinds and the 200 passthrough, not message texts). -/
inductive UrlClass where
  | success (r : HttpResponse)
  | rateLimited
  | timedOut
  | clientError
  deriving DecidableEq, Repr

/-- The class of a classified request outcome. -/
def classOf : Except PyExn HttpResponse → UrlClass
  | Except.ok r => UrlClass.success r
  | Except.error e =>
    match e.kind with
    | ExnKind.ratelimit => UrlClass.rateLimited
    | ExnKind.timeout => UrlClass.timedOut
    | _ => UrlClass.clientError

/-- The Error Classifier as the spec words it (section 4.3 / claim C7):
status 200 passes the body through; statuses in {202, 301, 400, 403, 418,
429} signal rate limiting regardless of body; transport failures whose
message contains a timeout indicator are timeouts; every other transport
failure and every other status is a generic client error. Stated for
comparison with `get_url`, which is translated from the source. -/
def classifySpec : TransportOutcome → UrlClass
  | TransportOutcome.exn _ msg =>
    if containsSub (lowerStr msg) "time" then UrlClass.timedOut else UrlClass.clientError
  | TransportOutcome.resp r =>
    if r.status_code = 200 then UrlClass.success r
    else if r.status_code ∈ [202, 301, 400, 403, 418, 429] then UrlClass.rateLimited
    else UrlClass.clientError

/-- An environment whose landing-page GET fails at transport level. -/
def envXfeFail : Env :=
  ⟨TransportOutcome.exn "ConnectError" "boom", goodStatusResp, mkChatResp [], [],
   fun p _ => p ++ "+"⟩

/-- An environment whose status response carries no `x-vqd-4` header. -/
def envNoVqd : Env :=
  ⟨goodXfeResp,
   TransportOutcome.resp ⟨statusUrl, 200, [("x-vqd-hash-1", "h0")], "", []⟩,
   mkChatResp [], [], fun p _ => p ++ "+"⟩

/-- An environment with parametrized token headers: the status GET issues
`(v, h)`, the chat POST response rotates to `(pv, ph)` and streams
`items`. -/
def envHdrs (v h pv ph : String) (items : List StreamItem) : Env :=
  ⟨goodXfeResp,
   TransportOutcome.resp ⟨statusUrl, 200, [("x-vqd-4", v), ("x-vqd-hash-1", h)], "", []⟩,
   TransportOutcome.resp ⟨chatUrl, 200, [("x-vqd-4", pv), ("x-vqd-hash-1", ph)], "", items⟩,
   [], fun p _ => p ++ "+"⟩

/-- The body of the spec's worked example: two message events and the
end-of-stream sentinel, as one chunk. -/
def items6 : List StreamItem :=
  [StreamItem.chunk
    "data: \x7b\"message\":\"Hel\"\x7d\n\ndata: \x7b\"message\":\"lo\"\x7d\n\ndata: [DONE]"]

/-- A state whose caches are already populated. -/
def stPop : ChatState := ⟨"xfe0", "vqd0", "hash0", [], 0⟩

/-- Both loop counters of the stream loop are invariant under the starting
token count and fragment accumulator: the run starting at `(t, a)` is the
run starting at `(0, [])` shifted by `t` and prefixed by `a`. -/
theorem runLines_shift (lines : List String) : ∀ t a, runLines t a lines =
    (t + (runLines 0 [] lines).1, a ++ (runLines 0 [] lines).2.1,
      (runLines 0 [] lines).2.2) := by
  induction lines with
  | nil => intro t a; simp [runLines]
  | cons raw rest ih =>
    intro t a
    cases h : stepLine raw with
    | skip => simpa [runLines, h] using ih t a
    | stop => simp [runLines, h]
    | yieldMsg s =>
      simp only [runLines, h, Nat.zero_add, List.nil_append]
      rw [ih (t + 1) (a ++ [s]), ih 1 [s]]
      refine Prod.ext ?_ (Prod.ext ?_ rfl)
      · simp only []
        omega
      · simp [List.append_assoc]
    | raiseExn e => simp [runLines, h]

/-- `runLines_shift` lifted to the outer chunk loop. -/
theorem runStream_shift (items : List StreamItem) : ∀ t a, runStream t a items =
    (t + (runStream 0 [] items).1, a ++ (runStream 0 [] items).2.1,
      (runStream 0 [] items).2.2) := by
  induction items with
  | nil => intro t a; simp [runStream]
  | cons it rest ih =>
    intro t a
    cases it with
    | fail n m => simp [runStream]
    | chunk b =>
      rcases h : runLines 0 [] (pySplit b "data:") with ⟨tl, al, el⟩
      have l1 : runLines t a (pySplit b "data:") = (t + tl, a ++ al, el) := by
        rw [runLines_shift _ t a, h]
      cases el with
      | none =>
        simp only [runStream, l1, h]
        rw [ih (t + tl) (a ++ al), ih tl al]
        simp [Nat.add_assoc]
      | some e => simp [runStream, l1, h]

/-- The token counter of the inner loop counts exactly the fragments
accumulated so far. -/
theorem runLines_tok (lines : List String) : ∀ t a,
    (runLines t a lines).1 + a.length = t + ((runLines t a lines).2.1).length := by
  induction lines with
  | nil => intro t a; simp [runLines]
  | cons raw rest ih =>
    intro t a
    cases h : stepLine raw with
    | skip => simpa [runLines, h] using ih t a
    | stop => simp [runLines, h]
    | yieldMsg s =>
      have h2 := ih (t + 1) (a ++ [s])
      simp only [runLines, h]
      simp at h2
      omega
    | raiseExn e => simp [runLines, h]

/-- The token counter of the chunk loop counts exactly the fragments
accumulated so far. -/
theorem runStream_tok (items : List StreamItem) : ∀ t a,
    (runStream t a items).1 + a.length = t + ((runStream t a items).2.1).length := by
  induction items with
  | nil => intro t a; simp [runStream]
  | cons it rest ih =>
    intro t a
    cases it with
    | fail n m => simp [runStream]
    | chunk b =>
      rcases h : runLines t a (pySplit b "data:") with ⟨tl, al, el⟩
      have hlt := runLines_tok (pySplit b "data:") t a
      rw [h] at hlt
      cases el with
      | none =>
        have h2 := ih tl al
        simp only [runStream, h]
        simp at hlt h2 ⊢
        omega
      | some e =>
        simp only [runStream, h]
        simpa using hlt

/-- A successful front-end-version bootstrap changes only `chat_xfe`. -/
theorem ensureXfe_pres (env : Env) (st st2 : ChatState) (n : Nat)
    (h : ensureXfe env st = Except.ok (st2, n)) :
    st2.chat_vqd = st.chat_vqd ∧ st2.chat_vqd_hash = st.chat_vqd_hash ∧
    st2.chat_messages = st.chat_messages ∧
    st2.chat_tokens_count = st.chat_tokens_count := by
  unfold ensureXfe at h
  split at h
  · split at h
    · simp at h
    · split at h
      · simp at h
      · simp only [Except.ok.injEq, Prod.mk.injEq] at h
        rw [← h.1]
        exact ⟨rfl, rfl, rfl, rfl⟩
  · simp only [Except.ok.injEq, Prod.mk.injEq] at h
    rw [← h.1]
    exact ⟨rfl, rfl, rfl, rfl⟩

/-- A successful session-token bootstrap changes only `chat_vqd` and
`chat_vqd_hash`. -/
theorem ensureVqd_pres (env : Env) (st st2 : ChatState) (n : Nat)
    (h : ensureVqd env st = Except.ok (st2, n)) :
    st2.chat_xfe = st.chat_xfe ∧ st2.chat_messages = st.chat_messages ∧
    st2.chat_tokens_count = st.chat_tokens_count := by
  unfold ensureVqd at h
  split at h
  · split at h
    · simp at h
    · simp only [Except.ok.injEq, Prod.mk.injEq] at h
      rw [← h.1]
      exact ⟨rfl, rfl, rfl⟩
  · simp only [Except.ok.injEq, Prod.mk.injEq] at h
    rw [← h.1]
    exact ⟨rfl, rfl, rfl⟩

/-- Characterization of a full `chat_yield` run against `mkEnv`: from any
starting state, the bootstrap steps succeed, the POST is `mkPost`, the
tokens rotate to the POST response's headers, and the run's fragments,
outcome and final state are determined by `runStream 0 []` on the body. -/
theorem chat_yield_mkEnv (items : List StreamItem) (st : ChatState) (kw mdl : String) :
    chat_yield (mkEnv items) st kw mdl = mkRun items st kw mdl := by
  have hx : ensureXfe (mkEnv items) st =
      Except.ok (({ st with chat_xfe := mkXfe st } : ChatState),
        (if st.chat_xfe = "" then 1 else 0)) := by
    unfold ensureXfe mkXfe
    by_cases h : st.chat_xfe = ""
    · simp only [if_pos h]
      try rfl
    · simp only [if_neg h]
      try rfl
  have hv : ensureVqd (mkEnv items) { st with chat_xfe := mkXfe st } =
      Except.ok ((⟨mkXfe st, mkVqd st, mkHashPrev st, st.chat_messages,
        st.chat_tokens_count⟩ : ChatState), (if st.chat_vqd = "" then 1 else 0)) := by
    unfold ensureVqd mkVqd mkHashPrev
    by_cases h : st.chat_vqd = ""
    · dsimp only
      simp only [if_pos h]
      try rfl
    · dsimp only
      simp only [if_neg h]
      try rfl
  rcases h0 : runStream 0 [] items with ⟨rt, rfr, re⟩
  have hshift : ∀ tt : Nat, runStream tt [] items = (tt + rt, rfr, re) := by
    intro tt
    rw [runStream_shift items tt [], h0]
    rfl
  have hc : get_url chatUrl (mkEnv items).chatResp =
      Except.ok ⟨chatUrl, 200, [("x-vqd-4", "vqd2"), ("x-vqd-hash-1", "hash2")], "", items⟩ :=
    rfl
  have hd : (mkEnv items).deriveHash = fun p _ => p ++ "+" := rfl
  cases re with
  | none =>
    simp only [chat_yield, mkRun, hx, hv, hc, hd, hshift, h0, Nat.zero_add]
    rfl
  | some e =>
    simp only [chat_yield, mkRun, hx, hv, hc, hd, hshift, h0, Nat.zero_add]
    rfl

/-- A successful extraction of the front-end version is never empty (it
contains the "-" separator), so the cache guard never refetches it. -/
theorem extractXfe_ne (c x : String) (h : extractXfe c = some x) : x ≠ "" := by
  unfold extractXfe at h
  split at h
  · simp at h
  · split at h
    · simp at h
    · simp only [Option.some.injEq] at h
      subst h
      intro heq
      have hlen := congrArg String.length heq
      simp [String.length_append] at hlen
      exact absurd hlen.1.2 (by decide)

/-- Python `"".join` is the right fold of append over the fragments. -/
theorem join_eq_foldr (l : List String) : String.join l = l.foldr (fun a b => a ++ b) "" := by
  induction l with
  | nil => rfl
  | cons a l ih =>
    apply String.ext
    simp [String.data_join, ← ih]

/-- Claim C7 (confirmed): the error classifier agrees with the spec's
taxonomy on every request outcome — status 200 passes the response
through, statuses in {202, 301, 400, 403, 418, 429} are classified as
rate limiting regardless of body, transport failures whose message
contains the timeout indicator are timeouts, and every other transport
failure or status is a generic client error. -/
theorem get_url_matches_spec_classifier (u : String) (o : TransportOutcome) :
    classOf (get_url u o) = classifySpec o := by
  cases o with
  | exn name msg =>
    by_cases hc : containsSub (lowerStr msg) "time"
    · simp [get_url, classifySpec, classOf, hc]
    · simp [get_url, classifySpec, classOf, hc]
  | resp r =>
    by_cases h200 : r.status_code = 200
    · simp [get_url, classifySpec, classOf, h200]
    · by_cases hm : r.status_code ∈ [202, 301, 403, 400, 429, 418]
      · have hm2 : r.status_code ∈ [202, 301, 400, 403, 418, 429] := by
          simp only [List.mem_cons, List.not_mem_nil, or_false] at hm ⊢
          tauto
        simp [get_url, classifySpec, classOf, h200, hm, hm2]
      · have hm2 : r.status_code ∉ [202, 301, 400, 403, 418, 429] := by
          simp only [List.mem_cons, List.not_mem_nil, or_false] at hm ⊢
          tauto
        simp [get_url, classifySpec, classOf, h200, hm, hm2]

/-- Claim C9 (corrected, amended part): once a segment strips to the
`[DONE]` sentinel, no later segment of the same chunk is processed — the
inner loop's result does not depend on what follows the sentinel within
the chunk. (The `break` only exits the inner loop, so later chunks are
still processed; see the counterexample.) -/
theorem done_skips_rest_of_chunk (t : Nat) (a : List String) (pre post : List String) :
    runLines t a (pre ++ "[DONE]" :: post) = runLines t a (pre ++ ["[DONE]"]) := by
  induction pre generalizing t a with
  | nil =>
    have hs : stepLine "[DONE]" = SegStep.stop := rfl
    simp [runLines, hs]
  | cons p rest ih =>
    cases h : stepLine p with
    | skip => simp [runLines, h, ih]
    | stop => simp [runLines, h]
    | yieldMsg s => simp [runLines, h, ih]
    | raiseExn e => simp [runLines, h]

/-- Claim C9 (corrected, counterexample): a fragment in a chunk after the
chunk carrying `[DONE]` is still yielded — termination is per chunk, not
for the whole stream. -/
theorem claim9_counterexample :
    (chat_yield (mkEnv [StreamItem.chunk "data: [DONE]",
        StreamItem.chunk "data: \x7b\"message\":\"x\"\x7d"]) initState "q"
      "gpt-4o-mini").yielded = ["x"] ∧ (["x"] : List String) ≠ [] :=
  ⟨rfl, by decide⟩

/-- Claim C8 (confirmed): with caches populated, both token-acquisition
steps are no-ops performing zero requests and leaving the state unchanged;
with an empty front-end-version cache a call performs exactly one fetch
and, when it succeeds, stores a non-empty value (so the fetch happens at
most once unless it fails, in which case the guard stays empty and a later
call retries). -/
theorem token_acquisition_idempotent (env : Env) (st : ChatState) :
    (st.chat_xfe ≠ "" → ensureXfe env st = Except.ok (st, 0)) ∧
    (st.chat_vqd ≠ "" → ensureVqd env st = Except.ok (st, 0)) ∧
    (st.chat_xfe = "" → ∀ st2 n, ensureXfe env st = Except.ok (st2, n) →
      n = 1 ∧ st2.chat_xfe ≠ "") := by
  refine ⟨?_, ?_, ?_⟩
  · intro h
    unfold ensureXfe
    rw [if_neg h]
  · intro h
    unfold ensureVqd
    rw [if_neg h]
  · intro h st2 n h2
    unfold ensureXfe at h2
    rw [if_pos h] at h2
    split at h2
    · simp at h2
    · split at h2
      · simp at h2
      · rename_i hx
        simp only [Except.ok.injEq, Prod.mk.injEq] at h2
        refine ⟨h2.2.symm, ?_⟩
        rw [← h2.1]
        exact extractXfe_ne _ _ hx

/-- Witness for C8: a populated cache is left untouched with zero
requests, and a fresh cache performs one fetch yielding a non-empty
version. -/
theorem token_acquisition_idempotent_witness :
    ensureXfe (mkEnv []) stPop = Except.ok (stPop, 0) ∧
    ensureVqd (mkEnv []) stPop = Except.ok (stPop, 0) ∧
    ((1 : Nat) = 1 ∧ ("be1-fe1" : String) ≠ "") := by
  refine ⟨?_, ?_, ?_⟩
  · exact (token_acquisition_idempotent (mkEnv []) stPop).1 (by decide)
  · exact (token_acquisition_idempotent (mkEnv []) stPop).2.1 (by decide)
  · exact (token_acquisition_idempotent (mkEnv []) initState).2.2 rfl
      ⟨"be1-fe1", "", "", [], 0⟩ 1 rfl

/-- Claim C1 (corrected, amended part): every exception raised while
iterating the body stream — including the typed chat errors — is wrapped
and re-raised as the base `DuckAIException`, with message
`chat_yield() {type}: {detail}`. -/
theorem chat_yield_wraps_all_stream_errors (st : ChatState) (kw mdl : String)
    (items : List StreamItem) (e : PyExn)
    (h : (runStream 0 [] items).2.2 = some e) :
    (chat_yield (mkEnv items) st kw mdl).outcome = some (wrapExn e) ∧
    (wrapExn e).kind = ExnKind.duckai := by
  refine ⟨?_, rfl⟩
  rw [chat_yield_mkEnv]
  rcases h0 : runStream 0 [] items with ⟨rt, rfr, re⟩
  rw [h0] at h
  simp only [] at h
  subst h
  simp [mkRun, h0]

/-- Witness for C1's amended theorem at the conversation-limit body. -/
theorem chat_yield_wraps_all_stream_errors_witness :
    (chat_yield (mkEnv [StreamItem.chunk "data: [DONE][LIMIT_CONVERSATION]"]) initState "hi"
        "gpt-4o-mini").outcome =
      some (wrapExn ⟨ExnKind.convLimit, "ERR_CONVERSATION_LIMIT"⟩) ∧
    (wrapExn ⟨ExnKind.convLimit, "ERR_CONVERSATION_LIMIT"⟩).kind = ExnKind.duckai :=
  chat_yield_wraps_all_stream_errors initState "hi" "gpt-4o-mini"
    [StreamItem.chunk "data: [DONE][LIMIT_CONVERSATION]"]
    ⟨ExnKind.convLimit, "ERR_CONVERSATION_LIMIT"⟩ rfl

/-- Claim C1 (corrected, counterexample): the typed
`ConversationLimitException` raised inside the stream loop does not
propagate unchanged — the caller receives the base `DuckAIException`
wrapper. -/
theorem claim1_counterexample :
    (chat_yield (mkEnv [StreamItem.chunk "data: [DONE][LIMIT_CONVERSATION]"]) initState "x"
        "gpt-4o-mini").outcome =
      some ⟨ExnKind.duckai,
        "chat_yield() ConversationLimitException: ERR_CONVERSATION_LIMIT"⟩ ∧
    ExnKind.duckai ≠ ExnKind.convLimit :=
  ⟨rfl, by decide⟩

/-- Claim C4 (corrected, amended part): when the conversation-limit
sentinel is the segment reached, `chat_yield` fails — with the base
`DuckAIException` wrapping the `ConversationLimitException` — and no
assistant entry is appended; only the user message was added. -/
theorem conversation_limit_sentinel (st : ChatState) (kw mdl : String)
    (rest : List StreamItem) :
    (chat_yield (mkEnv (StreamItem.chunk "data: [DONE][LIMIT_CONVERSATION]" :: rest)) st kw
        mdl).outcome =
      some ⟨ExnKind.duckai,
        "chat_yield() ConversationLimitException: ERR_CONVERSATION_LIMIT"⟩ ∧
    (chat_yield (mkEnv (StreamItem.chunk "data: [DONE][LIMIT_CONVERSATION]" :: rest)) st kw
        mdl).state.chat_messages = st.chat_messages ++ [⟨"user", kw⟩] := by
  rw [chat_yield_mkEnv]
  exact ⟨rfl, rfl⟩

/-- Claim C4 (corrected, counterexample): on the conversation-limit body
the raised exception's class is the base `DuckAIException`, not the
`ConversationLimitException` the claim names. -/
theorem claim4_counterexample :
    (chat_yield (mkEnv [StreamItem.chunk "data: [DONE][LIMIT_CONVERSATION]"]) initState "a"
        "gpt-4o-mini").outcome.map PyExn.kind = some ExnKind.duckai ∧
    some ExnKind.duckai ≠ some ExnKind.convLimit :=
  ⟨rfl, by decide⟩

/-- Claim C6 (confirmed): on the body
`data: {"message":"Hel"}\n\ndata: {"message":"lo"}\n\ndata: [DONE]` the
run yields exactly ["Hel", "lo"], terminates normally, and appends the
user message followed by the assistant entry "Hello". -/
theorem stream_example_hello (st : ChatState) (kw mdl : String) :
    (chat_yield (mkEnv items6) st kw mdl).yielded = ["Hel", "lo"] ∧
    (chat_yield (mkEnv items6) st kw mdl).outcome = none ∧
    (chat_yield (mkEnv items6) st kw mdl).state.chat_messages =
      st.chat_messages ++ [⟨"user", kw⟩, ⟨"assistant", "Hello"⟩] := by
  rw [chat_yield_mkEnv]
  refine ⟨rfl, rfl, ?_⟩
  have h1 : (mkRun items6 st kw mdl).state.chat_messages =
      st.chat_messages ++ [⟨"user", kw⟩] ++ [⟨"assistant", "Hello"⟩] := rfl
  rw [h1, List.append_assoc]
  rfl

/-- Claim C5 (corrected, counterexample): when the status response lacks
the `x-vqd-4` header, the chat POST is still issued — with an empty
session token — so the non-emptiness part of the claim fails; the record
also shows the hash recomputed alone (from "h0" to "h0+") while the token
field was not reassigned at that step. -/
theorem claim5_counterexample :
    (chat_yield envNoVqd initState "q" "gpt-4o-mini").post =
      some ⟨"be1-fe1", "", "h0+", "gpt-4o-mini", [⟨"user", "q"⟩]⟩ ∧
    ("" : String).length = 0 :=
  ⟨rfl, rfl⟩

/-- Claim C5 (corrected, amended part): the chat POST carries whatever
session token the status GET issued (possibly empty — no validation) and
a hash recomputed alone from the previous hash via the hash builder; the
status GET assigns both fields together, and after the POST both fields
are rotated together to the response's header values, whatever the stream
outcome. -/
theorem chat_post_credentials (v h pv ph kw mdl : String) (items : List StreamItem) :
    (chat_yield (envHdrs v h pv ph items) initState kw mdl).post =
      some ⟨"be1-fe1", v, h ++ "+", modelId mdl, [⟨"user", kw⟩]⟩ ∧
    (chat_yield (envHdrs v h pv ph items) initState kw mdl).state.chat_vqd = pv ∧
    (chat_yield (envHdrs v h pv ph items) initState kw mdl).state.chat_vqd_hash = ph := by
  have hx : ensureXfe (envHdrs v h pv ph items) initState =
      Except.ok ((⟨"be1-fe1", "", "", [], 0⟩ : ChatState), 1) := rfl
  have hv : ensureVqd (envHdrs v h pv ph items) (⟨"be1-fe1", "", "", [], 0⟩ : ChatState) =
      Except.ok ((⟨"be1-fe1", v, h, [], 0⟩ : ChatState), 1) := rfl
  have hc : get_url chatUrl (envHdrs v h pv ph items).chatResp =
      Except.ok ⟨chatUrl, 200, [("x-vqd-4", pv), ("x-vqd-hash-1", ph)], "", items⟩ := rfl
  rcases h0 : runStream 0 [] items with ⟨rt, rfr, re⟩
  have hshift : ∀ tt : Nat, runStream tt [] items = (tt + rt, rfr, re) := by
    intro tt
    rw [runStream_shift items tt [], h0]
    rfl
  cases re with
  | none =>
    simp only [chat_yield, hx, hv, hc, hshift]
    exact ⟨rfl, rfl, rfl⟩
  | some e =>
    simp only [chat_yield, hx, hv, hc, hshift]
    exact ⟨rfl, rfl, rfl⟩

/-- Claim C2 (corrected, counterexample): when the bootstrap front-end
version GET fails, `chat_yield` terminates abnormally but the history has
grown by zero entries, not one — the user message is appended only after
both bootstrap steps. -/
theorem claim2_counterexample :
    (chat_yield envXfeFail initState "q" "gpt-4o-mini").outcome =
      some ⟨ExnKind.duckai, homeUrl ++ " ConnectError: boom"⟩ ∧
    (chat_yield envXfeFail initState "q" "gpt-4o-mini").state.chat_messages = [] ∧
    (0 : Nat) ≠ 1 :=
  ⟨rfl, rfl, by decide⟩

/-- Claim C2 (corrected, amended part): on abnormal termination the
history has grown by exactly the user message when the failure occurred at
or after the chat POST (both bootstrap steps succeeded), and by nothing
when a bootstrap step failed; in no abnormal case is an assistant entry
appended. -/
theorem chat_yield_error_history (env : Env) (st : ChatState) (kw mdl : String) (e : PyExn)
    (h : (chat_yield env st kw mdl).outcome = some e) :
    (chat_yield env st kw mdl).state.chat_messages =
      (if bootstrapOk env st then st.chat_messages ++ [⟨"user", kw⟩]
       else st.chat_messages) := by
  rcases hx : ensureXfe env st with e1 | ⟨st1, n1⟩
  · simp [chat_yield, bootstrapOk, hx]
  · have hp1 := ensureXfe_pres env st st1 n1 hx
    rcases hv : ensureVqd env st1 with e2 | ⟨st2, n2⟩
    · simp [chat_yield, bootstrapOk, hx, hv, hp1.2.2.1]
    · have hp2 := ensureVqd_pres env st1 st2 n2 hv
      rcases hc : get_url chatUrl env.chatResp with e3 | r
      · simp [chat_yield, bootstrapOk, hx, hv, hc, hp1.2.2.1, hp2.2.1]
      · rcases hr : runStream (st2.chat_tokens_count + max (kw.length / 4) 1) [] r.stream
          with ⟨t2, frags, re⟩
        cases re with
        | some e4 =>
          simp [chat_yield, bootstrapOk, hx, hv, hc, hr, hp1.2.2.1, hp2.2.1]
        | none =>
          simp [chat_yield, hx, hv, hc, hr] at h

/-- Witness for C2's amended theorem at a failing bootstrap. -/
theorem chat_yield_error_history_witness :
    (chat_yield envXfeFail initState "q" "gpt-4o-mini").state.chat_messages =
      (if bootstrapOk envXfeFail initState then
        initState.chat_messages ++ [⟨"user", "q"⟩]
       else initState.chat_messages) :=
  chat_yield_error_history envXfeFail initState "q" "gpt-4o-mini"
    ⟨ExnKind.duckai, homeUrl ++ " ConnectError: boom"⟩ rfl

/-- Claim C3 (confirmed): on normal termination the history grows by
exactly two entries — the user message, then the assistant entry whose
content is the join of all yielded fragments in order — and tokenUsage
grows by `max(length(userText) / 4, 1)` for the user message plus one per
yielded fragment, hence strictly increases. -/
theorem chat_yield_success_history_tokens (env : Env) (st : ChatState) (kw mdl : String)
    (h : (chat_yield env st kw mdl).outcome = none) :
    (chat_yield env st kw mdl).state.chat_messages =
      st.chat_messages ++ [⟨"user", kw⟩,
        ⟨"assistant", String.join (chat_yield env st kw mdl).yielded⟩] ∧
    (chat_yield env st kw mdl).state.chat_tokens_count =
      st.chat_tokens_count + max (kw.length / 4) 1 +
        ((chat_yield env st kw mdl).yielded).length ∧
    st.chat_tokens_count < (chat_yield env st kw mdl).state.chat_tokens_count := by
  rcases hx : ensureXfe env st with e1 | ⟨st1, n1⟩
  · simp [chat_yield, hx] at h
  · have hp1 := ensureXfe_pres env st st1 n1 hx
    rcases hv : ensureVqd env st1 with e2 | ⟨st2, n2⟩
    · simp [chat_yield, hx, hv] at h
    · have hp2 := ensureVqd_pres env st1 st2 n2 hv
      rcases hc : get_url chatUrl env.chatResp with e3 | r
      · simp [chat_yield, hx, hv, hc] at h
      · rcases hr : runStream (st2.chat_tokens_count + max (kw.length / 4) 1) [] r.stream
          with ⟨t2, frags, re⟩
        have htok := runStream_tok r.stream (st2.chat_tokens_count + max (kw.length / 4) 1) []
        rw [hr] at htok
        simp only [List.length_nil, Nat.add_zero] at htok
        cases re with
        | some e4 => simp [chat_yield, hx, hv, hc, hr] at h
        | none =>
          have hst2 : st2.chat_tokens_count = st.chat_tokens_count :=
            hp2.2.2.trans hp1.2.2.2
          have hmax : 1 ≤ max (kw.length / 4) 1 := le_max_right _ _
          simp only [chat_yield, hx, hv, hc, hr]
          refine ⟨?_, ?_, ?_⟩
          · simp [hp1.2.2.1, hp2.2.1]
          · omega
          · omega

/-- Witness for C3 at the spec's worked example. -/
theorem chat_yield_success_history_tokens_witness :
    (chat_yield (mkEnv items6) initState "hi" "gpt-4o-mini").state.chat_messages =
      initState.chat_messages ++ [⟨"user", "hi"⟩,
        ⟨"assistant",
          String.join (chat_yield (mkEnv items6) initState "hi" "gpt-4o-mini").yielded⟩] ∧
    (chat_yield (mkEnv items6) initState "hi" "gpt-4o-mini").state.chat_tokens_count =
      initState.chat_tokens_count + max ("hi".length / 4) 1 +
        ((chat_yield (mkEnv items6) initState "hi" "gpt-4o-mini").yielded).length ∧
    initState.chat_tokens_count <
      (chat_yield (mkEnv items6) initState "hi" "gpt-4o-mini").state.chat_tokens_count :=
  chat_yield_success_history_tokens (mkEnv items6) initState "hi" "gpt-4o-mini" rfl

/-- Claim C10 (confirmed): `chat` drives the generator of `chat_yield` to
its end — it leaves exactly the session state `chat_yield` left, returns
the in-order concatenation of the yielded fragments on normal
termination, and raises exactly the exception `chat_yield` raised. -/
theorem chat_refines_chat_yield (env : Env) (st : ChatState) (kw mdl : String) :
    (chat env st kw mdl).2 = (chat_yield env st kw mdl).state ∧
    ((chat_yield env st kw mdl).outcome = none →
      (chat env st kw mdl).1 =
        Except.ok ((chat_yield env st kw mdl).yielded.foldr (fun a b => a ++ b) "")) ∧
    (∀ e, (chat env st kw mdl).1 = Except.error e ↔
      (chat_yield env st kw mdl).outcome = some e) := by
  cases ho : (chat_yield env st kw mdl).outcome with
  | none =>
    refine ⟨?_, ?_, ?_⟩
    · simp [chat, ho]
    · intro _
      simp [chat, ho, join_eq_foldr]
    · intro e
      simp [chat, ho]
  | some e0 =>
    refine ⟨?_, ?_, ?_⟩
    · simp [chat, ho]
    · intro hcon
      simp at hcon
    · intro e
      simp [chat, ho, eq_comm]

/-- Witness for C10: at the worked example, `chat` returns the join of
the fragments `chat_yield` yields. -/
theorem chat_refines_chat_yield_witness :
    (chat (mkEnv items6) initState "hi" "gpt-4o-mini").1 =
      Except.ok ((chat_yield (mkEnv items6) initState "hi"
        "gpt-4o-mini").yielded.foldr (fun a b => a ++ b) "") :=
  (chat_refines_chat_yield (mkEnv items6) initState "hi" "gpt-4o-mini").2.1 rfl

end Duckai
